import Mathlib

/-!
Verification development for the RoverGUI backend camera manager
(`src/backend/src/backend/managers/camera_manager.py` and
`src/backend/src/backend/api.py`), a shallow embedding of the `Camera`
dataclass, its operations, the `CameraManager` registry, and the two
frame-streaming loops (`Camera.stream` and `api.generate_frames`).

Modelling conventions:
- Python `int` is `Int`; wall-clock millisecond values and the fps-derived
  wait time (Python floats used only for pacing arithmetic) are `ℚ`, so the
  arithmetic identities are exact.
- A `cv2.VideoCapture` handle is modelled by its observable surface used by
  this code: whether `isOpened()` reports true, and the log of `set(prop, v)`
  calls applied to it.  `release()` removes the handle from the camera;
  operations that release report it in a `Bool` component.
- Raising methods return `Except Err Camera`; in the source every `raise`
  happens before any field assignment, so the post-state of a raising call
  is the pre-state (this is what `applyOp` uses for its error branch).
- Raw frames and encoded buffers are byte lists (`List Nat`); the external
  JPEG encoder (`cv2.imencode`) is passed in as a function parameter.
-/

/-- The observable surface of a `cv2.VideoCapture` handle as used by this
code: whether `isOpened()` reports true, and the `set(propId, value)` calls
applied to it. -/
structure VideoCapture where
  isOpened : Bool
  props : List (Int × Int)
deriving DecidableEq, Repr

/-- `cv2.VideoCapture.set(propId, value)`: applies a property to the live
handle (modelled as logging the call). -/
def VideoCapture.set (cap : VideoCapture) (propId value : Int) : VideoCapture :=
  { cap with props := cap.props ++ [(propId, value)] }

/-- cv2 property identifier `cv2.IMWRITE_JPEG_QUALITY` (= 1). -/
def IMWRITE_JPEG_QUALITY : Int := 1

/-- cv2 property identifier `cv2.CAP_PROP_FRAME_WIDTH` (= 3). -/
def CAP_PROP_FRAME_WIDTH : Int := 3

/-- cv2 property identifier `cv2.CAP_PROP_FRAME_HEIGHT` (= 4). -/
def CAP_PROP_FRAME_HEIGHT : Int := 4

/-- cv2 property identifier `cv2.CAP_PROP_FPS` (= 5). -/
def CAP_PROP_FPS : Int := 5

/-- cv2 property identifier `cv2.CAP_PROP_BUFFERSIZE` (= 38). -/
def CAP_PROP_BUFFERSIZE : Int := 38

/-- The errors raised by the embedded code: `ValueError`,
`CameraNotStartedError(action_name, camera_name)` and
`CameraNotFoundError(camera_name)` from `error.py` (the latter two carry
their constructor arguments). -/
inductive Err where
  | valueError (msg : String)
  | cameraNotStarted (action_name camera_name : String)
  | cameraNotFound (camera_name : String)
deriving DecidableEq, Repr

/-- The `Resolution` dataclass: a horizontal/vertical pair. -/
structure Resolution where
  horizontal : Int
  vertical : Int
deriving DecidableEq, Repr

/-- `Resolution.__str__`: the canonical `WxH` text form. -/
def Resolution.str (r : Resolution) : String :=
  toString r.horizontal ++ "x" ++ toString r.vertical

/-- The `Camera` dataclass, fields in source order. -/
structure Camera where
  name : String
  path : String
  fps : Int
  resolution : Resolution
  image_quality : Int
  video_capture : Option VideoCapture
  is_streaming : Bool
  is_capturing : Bool
deriving DecidableEq, Repr

/-- `Camera.__init__` with all arguments explicit (source order). -/
def Camera.init (camera_name camera_path : String) (resolution : Resolution)
    (camera_fps : Int) (image_quality : Int)
    (video_capture : Option VideoCapture) : Camera :=
  { name := camera_name, path := camera_path, fps := camera_fps
    resolution := resolution, image_quality := image_quality
    video_capture := video_capture, is_streaming := false
    is_capturing := false }

/-- `Camera.__init__` at its default arguments
(`Resolution(horizontal=640, vertical=480)`, `camera_fps=30`,
`image_quality=90`, `video_capture=None`), as used by
`CameraManager.__create_cameras`. -/
def defaultCamera (camera_name camera_path : String) : Camera :=
  Camera.init camera_name camera_path ⟨640, 480⟩ 30 90 none

/-- A raw frame (`cv2.Mat`) as an opaque byte list. -/
abbrev Frame : Type := List Nat

/-- `Camera.read`: returns the device's `(success, frame)` pair when
`is_capturing` and a handle is present, `None` otherwise.  `dev` is the pair
the device would deliver if invoked; the second component of the result
records whether `video_capture.read()` was actually invoked. -/
def Camera.read (c : Camera) (dev : Bool × Frame) :
    Option (Bool × Frame) × Bool :=
  if c.is_capturing && c.video_capture.isSome then (some dev, true)
  else (none, false)

/-- `Camera.start(video_capture)`: releases the old handle if present, then
stores the given handle and sets `is_capturing = True`.  The source performs
no `isOpened()` check and raises nothing (despite its docstring).  The `Bool`
records whether an old handle was released. -/
def Camera.start (c : Camera) (video_capture : VideoCapture) : Camera × Bool :=
  (⟨c.name, c.path, c.fps, c.resolution, c.image_quality,
    some video_capture, c.is_streaming, true⟩, c.video_capture.isSome)

/-- `Camera.stop`: releases the handle if present, sets `is_capturing =
False` and `video_capture = None`.  The `Bool` records whether a handle was
released.  The source raises nothing. -/
def Camera.stop (c : Camera) : Camera × Bool :=
  (⟨c.name, c.path, c.fps, c.resolution, c.image_quality,
    none, c.is_streaming, false⟩, c.video_capture.isSome)

/-- `Camera.reset`: calls `stop()`, then builds a fresh capture device for
`self.path` and applies height/width/fps properties to it.  `newCap` is the
handle `cv2.VideoCapture(self.path)` returns (external outcome).  When the
fresh handle reports not-opened the source only logs an error and returns
normally, so the result is always `Except.ok`; otherwise it calls
`start(cap)`. -/
def Camera.reset (c : Camera) (newCap : VideoCapture) : Except Err Camera :=
  let c1 := c.stop.1
  let cap := ((newCap.set CAP_PROP_FRAME_HEIGHT c.resolution.vertical).set
      CAP_PROP_FRAME_WIDTH c.resolution.horizontal).set CAP_PROP_FPS c.fps
  if !cap.isOpened then
    .ok c1
  else
    .ok (c1.start cap).1

/-- `Camera.end_stream`: sets `is_streaming = False` (its only statement). -/
def Camera.end_stream (c : Camera) : Camera :=
  ⟨c.name, c.path, c.fps, c.resolution, c.image_quality,
   c.video_capture, false, c.is_capturing⟩

/-- `Camera.set_fps`: with a handle present, applies `CAP_PROP_FPS` to the
live handle and updates `fps`; otherwise raises `CameraNotStartedError`. -/
def Camera.set_fps (c : Camera) (fps : Int) : Except Err Camera :=
  match c.video_capture with
  | some cap =>
      .ok ⟨c.name, c.path, fps, c.resolution, c.image_quality,
           some (cap.set CAP_PROP_FPS fps), c.is_streaming, c.is_capturing⟩
  | none => .error (.cameraNotStarted "setting current fps" c.name)

/-- `Camera.set_current_resolution`: with a handle present, stores the new
resolution and invokes `reset()` (whose fresh-open outcome is `newCap`);
otherwise raises `CameraNotStartedError`. -/
def Camera.set_current_resolution (c : Camera) (resolution : Resolution)
    (newCap : VideoCapture) : Except Err Camera :=
  match c.video_capture with
  | some _ =>
      Camera.reset ⟨c.name, c.path, c.fps, resolution, c.image_quality,
        c.video_capture, c.is_streaming, c.is_capturing⟩ newCap
  | none => .error (.cameraNotStarted "setting current resolution" c.name)

/-- `Camera.set_image_quality`: rejects `quality < 0 or quality > 100` with
`ValueError` before touching any state; then, with a handle present, applies
`IMWRITE_JPEG_QUALITY` to the live handle and updates `image_quality`;
otherwise raises `CameraNotStartedError`. -/
def Camera.set_image_quality (c : Camera) (quality : Int) : Except Err Camera :=
  if quality < 0 ∨ quality > 100 then
    .error (.valueError "Image quality must be between 0 and 100.")
  else
    match c.video_capture with
    | some cap =>
        .ok ⟨c.name, c.path, c.fps, c.resolution, quality,
             some (cap.set IMWRITE_JPEG_QUALITY quality),
             c.is_streaming, c.is_capturing⟩
    | none => .error (.cameraNotStarted "setting current image quality" c.name)

/-- `api.fps_to_ms`: `(1 / fps) * 1000`, the milliseconds between frames. -/
def fps_to_ms (fps : Int) : ℚ :=
  (1 / (fps : ℚ)) * 1000

/-- The wait time `Camera.stream` computes at the top of each loop pass:
`fps_to_ms(self.fps)`, read from the live `fps` field. -/
def streamWaitTime (c : Camera) : ℚ :=
  fps_to_ms c.fps

/-- UTF-8 bytes of a string, for the multipart framing literals. -/
def strBytes (s : String) : List Nat :=
  s.toUTF8.toList.map (fun b => b.toNat)

/-- One multipart MJPEG part:
`b"--frame\r\n" b"Content-Type: image/jpeg\r\n\r\n" + frame + b"\r\n"`. -/
def mjpegPart (frame : List Nat) : List Nat :=
  strBytes "--frame\r\nContent-Type: image/jpeg\r\n\r\n" ++ frame ++
    strBytes "\r\n"

/-- What one pass of the `Camera.stream` while-loop does. -/
inductive StreamStep where
  /-- `is_streaming` was false at the loop head: the loop exits (and the
  generator then calls `stop()`). -/
  | exited
  /-- Not capturing, or the pacing interval has not yet elapsed: the pass
  does nothing and the loop re-checks. -/
  | notTime
  /-- `read()` returned `None`: the pass logs, sleeps one second, and
  `continue`s. -/
  | waitingNoFrame
  /-- `read()` returned `(False, _)`: the pass logs and `continue`s --
  nothing is yielded and the loop keeps running. -/
  | failedRead
  /-- A frame was read, encoded and yielded; `time_since_last_frame` is
  updated to `now`. -/
  | yielded (part : List Nat)
deriving DecidableEq, Repr

/-- One pass of the `Camera.stream` generator loop.  `encoder` is the
external `cv2.imencode(".jpg", frame, [IMWRITE_JPEG_QUALITY, q])` primitive
(frame and quality to encoded bytes), `time_since_last_frame` and `now` are
wall-clock milliseconds (`time.time() * 1000`), and `dev` is the
`(success, frame)` pair the device would deliver to `read()`.  Returns the
pass outcome and the new `time_since_last_frame`. -/
def Camera.streamStep (c : Camera) (encoder : Frame → Int → List Nat)
    (time_since_last_frame now : ℚ) (dev : Bool × Frame) :
    StreamStep × ℚ :=
  if !c.is_streaming then (.exited, time_since_last_frame)
  else
    let wait_time := streamWaitTime c
    if c.is_capturing && decide (now - time_since_last_frame > wait_time) then
      match (c.read dev).1 with
      | none => (.waitingNoFrame, time_since_last_frame)
      | some (success, frame) =>
          if !success then (.failedRead, time_since_last_frame)
          else (.yielded (mjpegPart (encoder frame c.image_quality)), now)
    else (.notTime, time_since_last_frame)

/-- What one pass of the `api.generate_frames` while-loop does. -/
inductive GenStep where
  /-- The loop guard was false: the loop exits and `cap.release()` runs. -/
  | exited
  /-- `cap.read()` reported failure: `break` -- the loop terminates and
  `cap.release()` runs, ending the response stream. -/
  | broke
  /-- The frame was read but the pacing interval has not elapsed: nothing is
  yielded this pass. -/
  | notTime
  /-- A frame was read, encoded and yielded; `time_since_last_frame` is
  updated to `now`. -/
  | yielded (part : List Nat)
deriving DecidableEq, Repr

/-- One pass of the `api.generate_frames(cap, camera_name)` loop.  The
source guards the loop on `get_camera(camera_name).is_running`, an attribute
no `Camera` has (the pre-rename revision of `is_streaming`); it is modelled
as the `is_streaming` flag so the loop body is reachable at all.  Unlike
`Camera.stream`, `cap.read()` runs on every pass before the pacing check,
and a failed read executes `break`. -/
def genFramesStep (c : Camera) (encoder : Frame → Int → List Nat)
    (time_since_last_frame now : ℚ) (dev : Bool × Frame) :
    GenStep × ℚ :=
  if !c.is_streaming then (.exited, time_since_last_frame)
  else
    let wait_time := fps_to_ms c.fps
    let success := dev.1
    let frame := dev.2
    if !success then (.broke, time_since_last_frame)
    else if decide (now - time_since_last_frame > wait_time) then
      (.yielded (mjpegPart (encoder frame c.image_quality)), now)
    else (.notTime, time_since_last_frame)

/-- `CameraManager.__create_cameras`, abstracted over the enumeration
collaborator's result: one default-configured `Camera` per `(name, path)`
pair, in order. -/
def createCameras (camera_dict : List (String × String)) : List Camera :=
  camera_dict.map (fun np => defaultCamera np.1 np.2)

/-- `CameraManager.get_camera`: linear scan for the first camera with the
given name; raises `CameraNotFoundError` when none matches. -/
def get_camera (cameras : List Camera) (camera_name : String) :
    Except Err Camera :=
  match cameras with
  | [] => .error (.cameraNotFound camera_name)
  | camera :: rest =>
      if camera.name = camera_name then .ok camera
      else get_camera rest camera_name

/-- `CameraManager.camera_path_from_name`: same scan, returns the path. -/
def camera_path_from_name (cameras : List Camera) (camera_name : String) :
    Except Err String :=
  match cameras with
  | [] => .error (.cameraNotFound camera_name)
  | camera :: rest =>
      if camera.name = camera_name then .ok camera.path
      else camera_path_from_name rest camera_name

/-- `CameraManager.get_available_cameras`: names of the cameras whose
`is_streaming` flag is false, in order. -/
def get_available_cameras (cameras : List Camera) : List String :=
  (cameras.filter (fun c => !c.is_streaming)).map (fun c => c.name)

/-- One invocation of a `Camera` mutator, with the external outcomes it
consumes (the handle passed to `start`, the fresh handle a `reset` opens). -/
inductive Op where
  | opStart (h : VideoCapture)
  | opStop
  | opReset (newCap : VideoCapture)
  | opSetFps (f : Int)
  | opSetRes (r : Resolution) (newCap : VideoCapture)
  | opSetQuality (q : Int)
  | opEndStream
deriving Repr

/-- The camera state after one operation, whether or not it raised: in the
source every `raise` precedes any field assignment, so a raising call leaves
the object in its pre-call state. -/
def applyOp (c : Camera) (op : Op) : Camera :=
  match op with
  | .opStart h => (c.start h).1
  | .opStop => c.stop.1
  | .opReset newCap =>
      match c.reset newCap with
      | .ok c1 => c1
      | .error _ => c
  | .opSetFps f =>
      match c.set_fps f with
      | .ok c1 => c1
      | .error _ => c
  | .opSetRes r newCap =>
      match c.set_current_resolution r newCap with
      | .ok c1 => c1
      | .error _ => c
  | .opSetQuality q =>
      match c.set_image_quality q with
      | .ok c1 => c1
      | .error _ => c
  | .opEndStream => c.end_stream

/-- Whether the camera currently holds a handle that reports open. -/
def camHandleOpen (c : Camera) : Bool :=
  match c.video_capture with
  | some h => h.isOpened
  | none => false

/-- The flag/handle coupling the code actually maintains: `is_capturing` is
true exactly when a handle is stored (openness plays no role). -/
def capturingInv (c : Camera) : Prop :=
  c.is_capturing = c.video_capture.isSome

/-- A fixed stand-in encoder for concrete evaluations: returns the raw
frame bytes unchanged. -/
def idEncoder : Frame → Int → List Nat :=
  fun frame _q => frame

/-- A camera after a successful `/stream/start` handler `start` call: the
handler opens a handle, applies `CAP_PROP_BUFFERSIZE = 1`, and passes it to
`Camera.start`. -/
def startedCam : Camera :=
  ((defaultCamera "Logitech" "/dev/video0").start
    ⟨true, [(CAP_PROP_BUFFERSIZE, 1)]⟩).1

/-- `startedCam` with the `is_streaming` flag set, as at the top of a
streaming loop. -/
def streamingCam : Camera :=
  { startedCam with is_streaming := true }

/-- A camera that has been started with a handle reporting not-opened:
`start` stores the handle and sets `is_capturing = True` regardless of
openness, so this state is reachable. -/
def unopenedCam : Camera :=
  ((defaultCamera "Logitech" "/dev/video0").start ⟨false, []⟩).1

lemma reset_capturingInv (c : Camera) (newCap : VideoCapture) (c1 : Camera)
    (h : c.reset newCap = .ok c1) : capturingInv c1 := by
  simp only [Camera.reset] at h
  split at h
  · injection h with h; subst h; simp [Camera.stop, capturingInv]
  · injection h with h; subst h; simp [Camera.stop, Camera.start, capturingInv]

lemma capturingInv_applyOp (c : Camera) (op : Op) (h : capturingInv c) :
    capturingInv (applyOp c op) := by
  cases op with
  | opStart cap => simp [applyOp, Camera.start, capturingInv]
  | opStop => simp [applyOp, Camera.stop, capturingInv]
  | opReset newCap =>
      cases hres : c.reset newCap with
      | ok c1 =>
          simp only [applyOp, hres]
          exact reset_capturingInv c newCap c1 hres
      | error e => simp only [applyOp, hres]; exact h
  | opSetFps f =>
      cases hvc : c.video_capture with
      | none => simpa [applyOp, Camera.set_fps, hvc] using h
      | some cap =>
          simp only [capturingInv, hvc, Option.isSome_some] at h
          simp [applyOp, Camera.set_fps, hvc, capturingInv, h]
  | opSetRes r newCap =>
      cases hvc : c.video_capture with
      | none => simpa [applyOp, Camera.set_current_resolution, hvc] using h
      | some cap =>
          cases hres : c.set_current_resolution r newCap with
          | ok c1 =>
              simp only [applyOp, hres]
              simp only [Camera.set_current_resolution, hvc] at hres
              exact reset_capturingInv _ newCap c1 hres
          | error e => simp only [applyOp, hres]; exact h
  | opSetQuality q =>
      by_cases hq : q < 0 ∨ q > 100
      · simpa [applyOp, Camera.set_image_quality, hq] using h
      · cases hvc : c.video_capture with
        | none => simpa [applyOp, Camera.set_image_quality, hq, hvc] using h
        | some cap =>
            simp only [capturingInv, hvc, Option.isSome_some] at h
            simp [applyOp, Camera.set_image_quality, hq, hvc, capturingInv, h]
  | opEndStream => simpa [applyOp, Camera.end_stream, capturingInv] using h

lemma capturingInv_foldl (ops : List Op) (c : Camera) (h : capturingInv c) :
    capturingInv (ops.foldl applyOp c) := by
  induction ops generalizing c with
  | nil => exact h
  | cons op rest ih => exact ih (applyOp c op) (capturingInv_applyOp c op h)

/-- Claim C1 (code evaluated at the failing input): `Camera.start` performs
no open-check.  Passing a device handle that reports not-opened to a fresh
camera's `start` leaves the camera with `is_capturing = true` and the
unopened handle stored -- no `DeviceOpenError`/`VideoCaptureError` is raised
(the model's result type has no error channel because the source body cannot
raise), and the state does not remain null/false as the claim requires. -/
theorem start_ignores_unopened_handle :
    ((defaultCamera "Logitech" "/dev/video0").start ⟨false, []⟩).1.is_capturing
        = true ∧
    ((defaultCamera "Logitech" "/dev/video0").start ⟨false, []⟩).1.video_capture
        = some ⟨false, []⟩ :=
  ⟨rfl, rfl⟩

/-- Claim C2 (code evaluated at the failing input): when the fresh device
open inside `reset()` fails, the camera is indeed left in the stopped state
(`video_capture = none`, `is_capturing = false`), but the call returns
`Except.ok` -- the failure is only logged, and nothing is returned or raised
to the caller of `reset`, contrary to the claim's observability half. -/
theorem reset_open_failure_silent_but_stopped :
    startedCam.reset ⟨false, []⟩ =
      .ok ⟨"Logitech", "/dev/video0", 30, ⟨640, 480⟩, 90, none, false, false⟩ :=
  rfl

/-- Claim C3 (counterexample): after `start` with a handle that reports
not-opened, `is_capturing` is true while no open handle is held, so the
claimed invariant `is_capturing = true` iff `deviceHandle` non-null and open
fails after that operation. -/
theorem capturing_open_iff_fails_on_unopened_start :
    (applyOp (defaultCamera "Logitech" "/dev/video0")
        (.opStart ⟨false, []⟩)).is_capturing = true ∧
    camHandleOpen (applyOp (defaultCamera "Logitech" "/dev/video0")
        (.opStart ⟨false, []⟩)) = false :=
  ⟨rfl, rfl⟩

/-- Claim C3 (amended): for a camera constructed with the default null
handle, after any sequence of start/stop/reset/set_fps/
set_current_resolution/set_image_quality/end_stream operations,
`is_capturing` is true exactly when `video_capture` is non-null.  Openness
of the stored handle is not part of the invariant the code maintains:
`start` records any handle as capturing without checking `isOpened()`, and
`__init__` accepts an arbitrary initial handle while hard-coding
`is_capturing = False`. -/
theorem capturing_iff_handle_present_inv
    (camera_name camera_path : String) (ops : List Op) :
    capturingInv (ops.foldl applyOp (defaultCamera camera_name camera_path)) :=
  capturingInv_foldl ops _ rfl

/-- Claim C8: `stop()` releases the device handle exactly when one is
present (the `Bool` component records the `release()` call), sets
`video_capture` to null and `is_capturing` to false, and is idempotent: a
second `stop` on the stopped state is a no-op returning the same state with
no release.  The model's result type has no error channel because the
source body cannot raise. -/
theorem stop_releases_and_idempotent (c : Camera) :
    c.stop.1.video_capture = none ∧
    c.stop.1.is_capturing = false ∧
    c.stop.2 = c.video_capture.isSome ∧
    c.stop.1.stop = (c.stop.1, false) :=
  ⟨rfl, rfl, rfl, rfl⟩

/-- Claim C9: `end_stream()` sets `is_streaming` to false and leaves every
other field of the camera unchanged; its body is a single flag assignment
and cannot raise (the model is a total function with no error channel). -/
theorem end_stream_only_clears_streaming_flag (c : Camera) :
    c.end_stream.is_streaming = false ∧
    c.end_stream.name = c.name ∧
    c.end_stream.path = c.path ∧
    c.end_stream.fps = c.fps ∧
    c.end_stream.resolution = c.resolution ∧
    c.end_stream.image_quality = c.image_quality ∧
    c.end_stream.video_capture = c.video_capture ∧
    c.end_stream.is_capturing = c.is_capturing :=
  ⟨rfl, rfl, rfl, rfl, rfl, rfl, rfl, rfl⟩

/-- Claim C10: whenever `is_capturing` is false or no handle is stored,
`read()` returns `None` and does not invoke `video_capture.read()` (the
second component records whether the device was invoked).  `read` covers
all camera states with these two branches, so it is total and never
raises. -/
theorem read_returns_none_when_not_capturing (c : Camera) (dev : Bool × Frame)
    (h : c.is_capturing = false ∨ c.video_capture = none) :
    c.read dev = (none, false) := by
  unfold Camera.read
  rcases h with h | h <;> simp [h]

/-- Witness for C10 at a concrete input: a freshly constructed camera. -/
theorem read_returns_none_when_not_capturing_witness :
    (defaultCamera "Logitech" "/dev/video0").read (true, [1, 2, 3]) =
      (none, false) :=
  read_returns_none_when_not_capturing _ _ (Or.inl rfl)

/-- Claim C4 (code evaluated at the failing input): on a tick where the
capture primitive reports a failed single-frame read (`success = False`),
the `Camera.stream` loop merely logs and `continue`s (outcome `failedRead`,
no yield, no exit), matching the claim -- but `api.generate_frames`, the
loop the `/stream/start/{camera_name}` handler actually returns to the
client, executes `break` on the very same failed read, terminating the
frame sequence and releasing the capture. -/
theorem failed_read_breaks_generate_frames_but_not_stream :
    genFramesStep streamingCam idEncoder 0 100 (false, [7]) =
      (.broke, 0) ∧
    streamingCam.streamStep idEncoder 0 100 (false, [7]) =
      (.failedRead, 0) := by
  constructor
  · decide
  · norm_num [Camera.streamStep, Camera.read, streamWaitTime, fps_to_ms,
      streamingCam, startedCam, defaultCamera, Camera.init, Camera.start]

/-- Claim C5 (amended): `set_image_quality` rejects any quality below 0 or
above 100 with the `ValueError` (the spec's `InvalidParameterError`) raised
before any mutation, so the camera state -- `image_quality` included -- is
unchanged; with an in-range quality but no stored handle (`deviceHandle`
null) it raises `CameraNotStartedError`, again with the state unchanged;
and with a handle present it accepts the boundary values 0 and 100,
applying them to the live handle and recording them in `image_quality`.
The source guard is `video_capture is not None` -- handle presence, not
openness: on a stored-but-unopened handle the call succeeds (see the
counterexample to the original claim). -/
theorem set_image_quality_validation (c : Camera) (q : Int) :
    ((q < 0 ∨ q > 100) →
      c.set_image_quality q =
        .error (.valueError "Image quality must be between 0 and 100.") ∧
      applyOp c (.opSetQuality q) = c) ∧
    (0 ≤ q → q ≤ 100 → c.video_capture = none →
      c.set_image_quality q =
        .error (.cameraNotStarted "setting current image quality" c.name) ∧
      applyOp c (.opSetQuality q) = c) ∧
    (∀ cap, c.video_capture = some cap →
      c.set_image_quality 0 =
        .ok ⟨c.name, c.path, c.fps, c.resolution, 0,
             some (cap.set IMWRITE_JPEG_QUALITY 0),
             c.is_streaming, c.is_capturing⟩ ∧
      c.set_image_quality 100 =
        .ok ⟨c.name, c.path, c.fps, c.resolution, 100,
             some (cap.set IMWRITE_JPEG_QUALITY 100),
             c.is_streaming, c.is_capturing⟩) := by
  refine ⟨fun hq => ?_, fun h0 h100 hvc => ?_, fun cap hcap => ?_⟩
  · constructor
    · simp [Camera.set_image_quality, hq]
    · simp [applyOp, Camera.set_image_quality, hq]
  · have hq : ¬(q < 0 ∨ q > 100) := by omega
    constructor
    · simp [Camera.set_image_quality, hq, hvc]
    · simp [applyOp, Camera.set_image_quality, hq, hvc]
  · constructor
    · norm_num [Camera.set_image_quality, hcap]
    · norm_num [Camera.set_image_quality, hcap]

/-- Witness for C5 at concrete inputs: 101 is rejected by `ValueError` on a
started camera, 50 hits `CameraNotStartedError` on a fresh camera, and 0 is
accepted on a started camera. -/
theorem set_image_quality_validation_witness :
    startedCam.set_image_quality 101 =
      .error (.valueError "Image quality must be between 0 and 100.") ∧
    (defaultCamera "Fresh" "/dev/video9").set_image_quality 50 =
      .error (.cameraNotStarted "setting current image quality" "Fresh") ∧
    startedCam.set_image_quality 0 =
      .ok ⟨"Logitech", "/dev/video0", 30, ⟨640, 480⟩, 0,
           some ⟨true, [(CAP_PROP_BUFFERSIZE, 1), (IMWRITE_JPEG_QUALITY, 0)]⟩,
           false, true⟩ :=
  ⟨((set_image_quality_validation startedCam 101).1 (by omega)).1,
   ((set_image_quality_validation (defaultCamera "Fresh" "/dev/video9") 50).2.1
      (by omega) (by omega) rfl).1,
   ((set_image_quality_validation startedCam 0).2.2
      ⟨true, [(CAP_PROP_BUFFERSIZE, 1)]⟩ rfl).1⟩

/-- Claim C5 (counterexample to the original claim): on a camera whose
stored handle reports not-opened -- so no device handle is open, and the
state is reachable because `start` stores unopened handles -- the in-range
call `set_image_quality 50` does not raise `CameraNotStartedError`: it
succeeds, applies the quality to the unopened handle, and mutates
`image_quality` from 90 to 50.  The source guard tests `video_capture is
not None`, i.e. handle presence, never openness. -/
theorem set_image_quality_succeeds_on_unopened_handle :
    camHandleOpen unopenedCam = false ∧
    unopenedCam.image_quality = 90 ∧
    unopenedCam.set_image_quality 50 =
      .ok ⟨"Logitech", "/dev/video0", 30, ⟨640, 480⟩, 50,
           some ⟨false, [(IMWRITE_JPEG_QUALITY, 50)]⟩, false, true⟩ :=
  ⟨rfl, rfl, rfl⟩

lemma get_camera_mem (pairs : List (String × String)) (n p : String)
    (hnd : (pairs.map Prod.fst).Nodup) (hmem : (n, p) ∈ pairs) :
    get_camera (createCameras pairs) n = .ok (defaultCamera n p) := by
  induction pairs with
  | nil => cases hmem
  | cons hd tl ih =>
      rw [List.map_cons, List.nodup_cons] at hnd
      rcases List.mem_cons.mp hmem with heq | hmem2
      · subst heq
        simp [createCameras, get_camera, defaultCamera, Camera.init]
      · have hne : hd.1 ≠ n := by
          intro habs
          exact hnd.1 (habs ▸ List.mem_map.mpr ⟨(n, p), hmem2, rfl⟩)
        have hstep :
            get_camera (createCameras (hd :: tl)) n =
              get_camera (createCameras tl) n := by
          simp [createCameras, get_camera, defaultCamera, Camera.init, hne]
        rw [hstep]
        exact ih hnd.2 hmem2

lemma get_camera_not_mem (pairs : List (String × String)) (n : String)
    (h : n ∉ pairs.map Prod.fst) :
    get_camera (createCameras pairs) n = .error (.cameraNotFound n) := by
  induction pairs with
  | nil => rfl
  | cons hd tl ih =>
      rw [List.map_cons, List.mem_cons] at h
      push_neg at h
      have hne : hd.1 ≠ n := fun habs => h.1 habs.symm
      have hstep :
          get_camera (createCameras (hd :: tl)) n =
            get_camera (createCameras tl) n := by
        simp [createCameras, get_camera, defaultCamera, Camera.init, hne]
      rw [hstep]
      exact ih h.2

/-- Claim C6: for a registry built from `(name, path)` pairs with unique
names, `get_camera` returns the default-configured camera constructed from
the matching pair for every enumerated name, and returns
`CameraNotFoundError(name)` exactly for the names that are not
enumerated. -/
theorem get_camera_of_enumeration (pairs : List (String × String))
    (camera_name : String) (hUnique : (pairs.map Prod.fst).Nodup) :
    (∀ p, (camera_name, p) ∈ pairs →
      get_camera (createCameras pairs) camera_name =
        .ok (defaultCamera camera_name p)) ∧
    (get_camera (createCameras pairs) camera_name =
        .error (.cameraNotFound camera_name) ↔
      camera_name ∉ pairs.map Prod.fst) := by
  refine ⟨fun p hp => get_camera_mem pairs camera_name p hUnique hp, ?_, ?_⟩
  · intro herr hmem
    rcases List.mem_map.mp hmem with ⟨⟨n, p⟩, hnp, hfst⟩
    cases hfst
    rw [get_camera_mem pairs n p hUnique hnp] at herr
    cases herr
  · exact get_camera_not_mem pairs camera_name

/-- Witness for C6 at a concrete two-camera enumeration: the enumerated
name `Logitech` resolves to its camera and the unenumerated name `Unknown`
fails with `CameraNotFoundError`. -/
theorem get_camera_of_enumeration_witness :
    get_camera
        (createCameras [("Logitech", "/dev/video0"), ("USB Camera", "/dev/video2")])
        "Logitech" = .ok (defaultCamera "Logitech" "/dev/video0") ∧
    get_camera
        (createCameras [("Logitech", "/dev/video0"), ("USB Camera", "/dev/video2")])
        "Unknown" = .error (.cameraNotFound "Unknown") :=
  ⟨(get_camera_of_enumeration _ "Logitech" (by decide)).1 "/dev/video0"
      (by decide),
   (get_camera_of_enumeration _ "Unknown" (by decide)).2.mpr (by decide)⟩

/-- Claim C7: the wait time `Camera.stream` uses on a pass is
`fps_to_ms(self.fps)` read from the live `fps` field at that pass, and in
exact arithmetic it equals `1000 / fps` milliseconds; a pass whose elapsed
time does not exceed that live value emits nothing (`notTime`); and after a
mid-stream `set_fps` (which succeeds because a handle is present) the very
next pass's wait time is `1000 / newFps`. -/
theorem stream_interval_recomputed_each_pass (c : Camera) (f : Int)
    (cap : VideoCapture) (hcap : c.video_capture = some cap) :
    streamWaitTime c = 1000 / (c.fps : ℚ) ∧
    (∀ encoder last now dev, c.is_streaming = true →
      ¬(now - last > streamWaitTime c) →
      c.streamStep encoder last now dev = (.notTime, last)) ∧
    (c.set_fps f = .ok (applyOp c (.opSetFps f)) ∧
      (applyOp c (.opSetFps f)).fps = f ∧
      streamWaitTime (applyOp c (.opSetFps f)) = 1000 / (f : ℚ)) := by
  refine ⟨?_, fun encoder last now dev hs hlt => ?_, ?_, ?_, ?_⟩
  · show (1 / (c.fps : ℚ)) * 1000 = 1000 / (c.fps : ℚ)
    ring
  · have hd : decide (now - last > streamWaitTime c) = false :=
      decide_eq_false hlt
    simp [Camera.streamStep, hs, hd]
  · simp [applyOp, Camera.set_fps, hcap]
  · simp [applyOp, Camera.set_fps, hcap]
  · simp only [applyOp, Camera.set_fps, hcap]
    show (1 / (f : ℚ)) * 1000 = 1000 / (f : ℚ)
    ring

/-- Witness for C7 at concrete inputs: the streaming camera's wait time is
`1000 / 30`, a pass ten milliseconds after the last frame emits nothing,
and after `set_fps 15` the wait time is `1000 / 15`. -/
theorem stream_interval_recomputed_each_pass_witness :
    streamWaitTime streamingCam = 1000 / ((30 : Int) : ℚ) ∧
    streamingCam.streamStep idEncoder 0 10 (true, [7]) = (.notTime, 0) ∧
    streamWaitTime (applyOp streamingCam (.opSetFps 15)) =
      1000 / ((15 : Int) : ℚ) :=
  ⟨(stream_interval_recomputed_each_pass streamingCam 15
      ⟨true, [(CAP_PROP_BUFFERSIZE, 1)]⟩ rfl).1,
   (stream_interval_recomputed_each_pass streamingCam 15
      ⟨true, [(CAP_PROP_BUFFERSIZE, 1)]⟩ rfl).2.1 idEncoder 0 10 (true, [7])
      rfl (by norm_num [streamWaitTime, fps_to_ms, streamingCam, startedCam,
        defaultCamera, Camera.init, Camera.start]),
   (stream_interval_recomputed_each_pass streamingCam 15
      ⟨true, [(CAP_PROP_BUFFERSIZE, 1)]⟩ rfl).2.2.2.2⟩
